import Mathlib

set_option autoImplicit false

namespace SessionSpec

/-!
Shallow embedding of the `aldojs/session` repository.

The repository contains several historical variants of each component:
* `src/lib/session.js` holds two JavaScript `Session` classes (called `SessionJs1`
  and `SessionJs2` below, in file order);
* `src/src/session.ts` holds two TypeScript `Session` classes whose bodies agree
  on every method modelled here (called `SessionTs` below);
* `src/src/store.ts` holds the TypeScript `Store` class;
* the memory storage file holds two `MemoryStorage` variants (`memoryReadV1`,
  `memoryReadV2` below).

JavaScript plain objects are modelled as insertion-ordered association lists of
own enumerable string-keyed properties, together with a fixed list of keys
inherited from `Object.prototype` (consulted by `Reflect.get` / `Reflect.has`
but not by `Object.keys`).  Asynchronous adapter calls that may throw are
modelled with an explicit `Outcome`; a thrown error corresponds to `Outcome.err`
(the returned promise rejects), and mutations performed before the throwing call
are kept, as in JavaScript.  Every session operation returns the post state, the
outcome, and the list of adapter effects it performed.
-/

/-- Model of a JavaScript runtime value as far as the session library observes it. -/
inductive Value where
  | vUndef
  | vNull
  | vBool (b : Bool)
  | vNum (n : Int)
  | vStr (s : String)
  | vProto (name : String)
  deriving Repr, DecidableEq

/-- Own enumerable string-keyed properties of a plain object, in insertion order. -/
abbrev Obj := List (String × Value)

/-- The own property keys of `Object.prototype`, inherited by every plain object. -/
def objectProtoKeys : List String :=
  ["constructor", "hasOwnProperty", "isPrototypeOf", "propertyIsEnumerable",
   "toLocaleString", "toString", "valueOf"]

/-- Look up an own property. -/
def ownLookup : Obj → String → Option Value
  | [], _ => none
  | (k', v') :: rest, k => if k' = k then some v' else ownLookup rest k

/-- Property assignment: update in place if present, else append (JS insertion order). -/
def setOwn : Obj → String → Value → Obj
  | [], k, v => [(k, v)]
  | (k', v') :: rest, k, v =>
      if k' = k then (k, v) :: rest else (k', v') :: setOwn rest k v

/-- Model of `Reflect.deleteProperty` on the own properties. -/
def deleteOwn : Obj → String → Obj
  | [], _ => []
  | (k', v') :: rest, k => if k' = k then rest else (k', v') :: deleteOwn rest k

/-- Model of `Reflect.get`: own property first, then the `Object.prototype` chain. -/
def reflectGet (o : Obj) (k : String) : Value :=
  match ownLookup o k with
  | some v => v
  | none => if objectProtoKeys.contains k then Value.vProto k else Value.vUndef

/-- Model of `Reflect.has`: own property or a property inherited from `Object.prototype`. -/
def reflectHas (o : Obj) (k : String) : Bool :=
  (ownLookup o k).isSome || objectProtoKeys.contains k

/-- Model of `Object.keys`: own enumerable keys only. -/
def objectKeys (o : Obj) : List String := o.map Prod.fst

/-- Model of `Object.assign(target, source)`. -/
def objectAssign (target source : Obj) : Obj :=
  source.foldl (fun acc kv => setOwn acc kv.1 kv.2) target

/-- Model of `Object.keys(o).length === 0`. -/
def isEmptyObj (o : Obj) : Bool := (objectKeys o).length == 0

theorem ownLookup_setOwn_self (o : Obj) (k : String) (v : Value) :
    ownLookup (setOwn o k v) k = some v := by
  induction o with
  | nil => simp [setOwn, ownLookup]
  | cons kv rest ih =>
      by_cases h : kv.1 = k
      · simp [setOwn, h, ownLookup]
      · simp [setOwn, h, ownLookup, ih]

theorem ownLookup_setOwn_ne (o : Obj) (k k' : String) (v : Value) (h : k' ≠ k) :
    ownLookup (setOwn o k v) k' = ownLookup o k' := by
  induction o with
  | nil =>
      simp only [setOwn, ownLookup]
      rw [if_neg (fun hh : k = k' => h hh.symm)]
  | cons kv rest ih =>
      obtain ⟨k0, v0⟩ := kv
      by_cases hk : k0 = k
      · subst hk
        simp only [setOwn, if_pos rfl, ownLookup]
        rw [if_neg (fun hh : k0 = k' => h hh.symm), if_neg (fun hh : k0 = k' => h hh.symm)]
      · simp only [setOwn, if_neg hk, ownLookup]
        by_cases hk' : k0 = k'
        · rw [if_pos hk', if_pos hk']
        · rw [if_neg hk', if_neg hk']
          exact ih

theorem ownLookup_eq_none_of_not_mem (o : Obj) (k : String)
    (h : k ∉ objectKeys o) : ownLookup o k = none := by
  induction o with
  | nil => rfl
  | cons kv rest ih =>
      obtain ⟨k0, v0⟩ := kv
      simp only [objectKeys, List.map_cons, List.mem_cons, not_or] at h
      simp only [ownLookup]
      rw [if_neg (fun hh : k0 = k => h.1 hh.symm)]
      exact ih (by simpa [objectKeys] using h.2)

theorem ownLookup_assign_of_none (t s : Obj) (k : String)
    (h : ownLookup s k = none) :
    ownLookup (objectAssign t s) k = ownLookup t k := by
  induction s generalizing t with
  | nil => rfl
  | cons kv rest ih =>
      obtain ⟨k0, v0⟩ := kv
      simp only [ownLookup] at h
      by_cases hk : k0 = k
      · rw [if_pos hk] at h
        exact absurd h (by simp)
      · rw [if_neg hk] at h
        show ownLookup (objectAssign (setOwn t k0 v0) rest) k = ownLookup t k
        rw [ih (setOwn t k0 v0) h]
        exact ownLookup_setOwn_ne t k0 k v0 (fun hh => hk hh.symm)

theorem ownLookup_assign_of_some (t s : Obj) (k : String) (v : Value)
    (hnd : (objectKeys s).Nodup) (h : ownLookup s k = some v) :
    ownLookup (objectAssign t s) k = some v := by
  induction s generalizing t with
  | nil => simp [ownLookup] at h
  | cons kv rest ih =>
      obtain ⟨k0, v0⟩ := kv
      simp only [objectKeys, List.map_cons, List.nodup_cons] at hnd
      simp only [ownLookup] at h
      by_cases hk : k0 = k
      · rw [if_pos hk] at h
        injection h with hv
        subst hv
        show ownLookup (objectAssign (setOwn t k0 v0) rest) k = some v0
        rw [ownLookup_assign_of_none (setOwn t k0 v0) rest k
              (ownLookup_eq_none_of_not_mem rest k (by
                intro hm
                exact hnd.1 (by simpa [objectKeys, hk] using hm)))]
        rw [← hk]
        exact ownLookup_setOwn_self t k0 v0
      · rw [if_neg hk] at h
        exact ih (setOwn t k0 v0) (by simpa [objectKeys] using hnd.2) h

theorem isEmptyObj_iff_nil (o : Obj) : isEmptyObj o = true ↔ o = [] := by
  cases o <;> simp [isEmptyObj, objectKeys]

/-! ### Store (`src/src/store.ts`) -/

/-- The `Store` class: a wrapper around a plain object used as the state map. -/
structure Store where
  _state : Obj
  deriving Repr, DecidableEq

/-- Store constructor with the default `state = {}` argument. -/
def Store.empty : Store := ⟨[]⟩

/-- Method `Store.set`: `Reflect.set(this._state, key, value)`. -/
def Store.set (st : Store) (key : String) (value : Value) : Store :=
  ⟨setOwn st._state key value⟩

/-- Method `Store.reset`: replace the backing object entirely. -/
def Store.reset (st : Store) (state : Obj) : Store := ⟨state⟩

/-- Method `Store.isEmpty`: `Object.keys(this._state).length === 0`. -/
def Store.isEmpty (st : Store) : Bool := isEmptyObj st._state

/-- Method `Store.merge`: reset when empty, else `Object.assign` into the backing object. -/
def Store.merge (st : Store) (state : Obj) : Store :=
  if st.isEmpty then st.reset state else ⟨objectAssign st._state state⟩

/-- Method `Store.get`: `Reflect.get(this._state, key)`. -/
def Store.get (st : Store) (key : String) : Value := reflectGet st._state key

/-- Method `Store.has`: `Reflect.has(this._state, key)`. -/
def Store.has (st : Store) (key : String) : Bool := reflectHas st._state key

/-- Method `Store.delete`: `Reflect.deleteProperty(this._state, key)`. -/
def Store.delete (st : Store) (key : String) : Store := ⟨deleteOwn st._state key⟩

/-- Method `Store.toJSON`: returns the live backing object. -/
def Store.toJSON (st : Store) : Obj := st._state

/-! ### Asynchronous adapter calls -/

/-- Result of an awaited adapter call or of a public async method: either a value
or a thrown error (a rejected promise). -/
inductive Outcome (α : Type) where
  | ok (a : α)
  | err
  deriving Repr, DecidableEq

/-- Adapter effects performed by the JavaScript sessions (which hand the raw
state object to `write`). -/
inductive EffJs where
  | readE (sid : String)
  | writeE (sid : String) (data : Obj) (ttl : Nat)
  | removeE (sid : String)
  deriving Repr, DecidableEq

/-- Adapter effects performed by the TypeScript sessions (which hand the
serialized state to `write`). -/
inductive EffT where
  | readE (sid : String)
  | writeE (sid : String) (data : Value) (ttl : Nat)
  | removeE (sid : String)
  deriving Repr, DecidableEq

/-- Storage backend for the JavaScript sessions.  `read` resolves to the stored
state object or to a nullish value (`none`), or rejects (`Outcome.err`). -/
structure BackendJs where
  read : String → Outcome (Option Obj)
  write : String → Obj → Nat → Outcome Unit
  remove : String → Outcome Unit

/-- Storage backend for the TypeScript sessions (the `StorageContract`). -/
structure BackendT where
  read : String → Outcome Value
  write : String → Value → Nat → Outcome Unit
  remove : String → Outcome Unit

/-- The `SerializerContract`: the `_serializer` field, `JSON` by default,
modelled abstractly since its only observed behaviour is that `parse` and
`stringify` either return a value or throw. -/
structure Serializer where
  parse : Value → Outcome Obj
  stringify : Obj → Outcome Value

/-- Result of one public async session operation: the session after the call,
the outcome delivered to the caller, and the adapter calls performed. -/
structure Step (σ ε α : Type) where
  post : σ
  result : Outcome α
  effs : List ε
  deriving Repr, DecidableEq

/-- The default lifetime constant. -/
def TWO_HOURS : Nat := 2 * 60 * 60 * 1000

/-- JavaScript truthiness of an optional string argument; an omitted argument
is modelled as the empty string (`undefined` and `""` are both falsy). -/
def truthy (s : String) : Bool := !(s == "")

/-! ### Session, first variant of `src/lib/session.js` (lines 13-241)

Identifier generation (`crypto-random-string`) is modelled by a generator
function `gen` plus a counter `seed`: the n-th generated id is `gen n`. -/

structure SessionJs1 where
  _id : String
  _state : Obj
  _started : Bool
  _lifetime : Nat
  gen : Nat → String
  seed : Nat

/-- The constructor of the first JS variant: `_started = sid ? true : false`,
`_id = sid ? sid : this._generateId()`. -/
def mkSessionJs1 (gen : Nat → String) (sid : String) (state : Obj) : SessionJs1 :=
  { _id := if truthy sid then sid else gen 0
    _state := state
    _started := truthy sid
    _lifetime := TWO_HOURS
    gen := gen
    seed := if truthy sid then 0 else 1 }

def SessionJs1.isEmpty (s : SessionJs1) : Bool := isEmptyObj s._state

/-- Method `reset(newState = {})`. -/
def SessionJs1.reset (s : SessionJs1) (newState : Obj) : SessionJs1 :=
  { s with _state := newState }

/-- Method `start()`: no try/catch — a rejected `read` propagates and no field is
mutated; a nullish payload is skipped; `set(data)` with an object argument is
`Object.assign`; finally `started` is set and `true` returned. -/
def SessionJs1.start (s : SessionJs1) (b : BackendJs) : Step SessionJs1 EffJs Bool :=
  if s._started then ⟨s, .ok false, []⟩
  else
    match b.read s._id with
    | .err => ⟨s, .err, [.readE s._id]⟩
    | .ok none => ⟨{ s with _started := true }, .ok true, [.readE s._id]⟩
    | .ok (some data) =>
        ⟨{ s with _state := objectAssign s._state data, _started := true },
          .ok true, [.readE s._id]⟩

/-- Method `commit()`: `if (this.isEmpty()) return false; await this._write(this.toJSON()); return true`.
No try/catch — a rejected `write` propagates. -/
def SessionJs1.commit (s : SessionJs1) (b : BackendJs) : Step SessionJs1 EffJs Bool :=
  if s.isEmpty then ⟨s, .ok false, []⟩
  else
    match b.write s._id s._state s._lifetime with
    | .err => ⟨s, .err, [.writeE s._id s._state s._lifetime]⟩
    | .ok _ => ⟨s, .ok true, [.writeE s._id s._state s._lifetime]⟩

/-- Method `regenerate(destroy = false)`: `if (destroy) await this._destroy(); this._id = this._generateId()`.
No try/catch — a rejected `remove` propagates before the id is reassigned. -/
def SessionJs1.regenerate (s : SessionJs1) (b : BackendJs) (destroy : Bool) :
    Step SessionJs1 EffJs Unit :=
  if destroy then
    match b.remove s._id with
    | .err => ⟨s, .err, [.removeE s._id]⟩
    | .ok _ => ⟨{ s with _id := s.gen s.seed, seed := s.seed + 1 }, .ok (), [.removeE s._id]⟩
  else ⟨{ s with _id := s.gen s.seed, seed := s.seed + 1 }, .ok (), []⟩

/-- Method `invalidate()`: `return this.reset().regenerate(true)`. -/
def SessionJs1.invalidate (s : SessionJs1) (b : BackendJs) : Step SessionJs1 EffJs Unit :=
  (s.reset []).regenerate b true

/-! ### Session, second variant of `src/lib/session.js` (lines 254-501) -/

structure SessionJs2 where
  _id : String
  _state : Obj
  _started : Bool
  _dirty : Bool
  _lifetime : Nat
  gen : Nat → String
  seed : Nat

/-- The constructor of the second JS variant: `_started = !sid ? true : false`. -/
def mkSessionJs2 (gen : Nat → String) (sid : String) (state : Obj) : SessionJs2 :=
  { _id := if truthy sid then sid else gen 0
    _state := state
    _started := !truthy sid
    _dirty := false
    _lifetime := TWO_HOURS
    gen := gen
    seed := if truthy sid then 0 else 1 }

def SessionJs2.isEmpty (s : SessionJs2) : Bool := isEmptyObj s._state

def SessionJs2.set (s : SessionJs2) (key : String) (value : Value) : SessionJs2 :=
  { s with _state := setOwn s._state key value, _dirty := true }

def SessionJs2.merge (s : SessionJs2) (newState : Obj) : SessionJs2 :=
  { s with _state := objectAssign s._state newState, _dirty := true }

def SessionJs2.reset (s : SessionJs2) (newState : Obj) : SessionJs2 :=
  { s with _state := newState, _dirty := true }

def SessionJs2.get (s : SessionJs2) (key : String) : Value := reflectGet s._state key

def SessionJs2.has (s : SessionJs2) (key : String) : Bool := reflectHas s._state key

/-- Method `delete(key)`: `Reflect.deleteProperty` always returns true on a plain
object, so the dirty flag is always set. -/
def SessionJs2.delete (s : SessionJs2) (key : String) : SessionJs2 :=
  { s with _state := deleteOwn s._state key, _dirty := true }

/-- Method `pull(key)`: `get` then `delete`, returning the prior value. -/
def SessionJs2.pull (s : SessionJs2) (key : String) : SessionJs2 × Value :=
  (s.delete key, s.get key)

/-- Method `start()` of the second JS variant: returns false without reading when
already started; rejects when `read` rejects; returns false (still unstarted!)
when the payload is nullish; otherwise reset-if-empty-else-merge, clear the
dirty flag, set `started` and return true. -/
def SessionJs2.start (s : SessionJs2) (b : BackendJs) : Step SessionJs2 EffJs Bool :=
  if s._started then ⟨s, .ok false, []⟩
  else
    match b.read s._id with
    | .err => ⟨s, .err, [.readE s._id]⟩
    | .ok none => ⟨s, .ok false, [.readE s._id]⟩
    | .ok (some data) =>
        let s1 := if s.isEmpty then s.reset data else s.merge data
        ⟨{ s1 with _dirty := false, _started := true }, .ok true, [.readE s._id]⟩

/-- Method `commit()` of the second JS variant (same body as the first). -/
def SessionJs2.commit (s : SessionJs2) (b : BackendJs) : Step SessionJs2 EffJs Bool :=
  if s.isEmpty then ⟨s, .ok false, []⟩
  else
    match b.write s._id s._state s._lifetime with
    | .err => ⟨s, .err, [.writeE s._id s._state s._lifetime]⟩
    | .ok _ => ⟨s, .ok true, [.writeE s._id s._state s._lifetime]⟩

/-- Method `regenerate(destroy = false)` of the second JS variant (same body as the first). -/
def SessionJs2.regenerate (s : SessionJs2) (b : BackendJs) (destroy : Bool) :
    Step SessionJs2 EffJs Unit :=
  if destroy then
    match b.remove s._id with
    | .err => ⟨s, .err, [.removeE s._id]⟩
    | .ok _ => ⟨{ s with _id := s.gen s.seed, seed := s.seed + 1 }, .ok (), [.removeE s._id]⟩
  else ⟨{ s with _id := s.gen s.seed, seed := s.seed + 1 }, .ok (), []⟩

/-- Method `invalidate()` of the second JS variant. -/
def SessionJs2.invalidate (s : SessionJs2) (b : BackendJs) : Step SessionJs2 EffJs Unit :=
  (s.reset []).regenerate b true

/-! ### Session of `src/src/session.ts` (both TypeScript variants agree on the
methods modelled here) -/

structure SessionTs where
  _id : String
  _state : Store
  _started : Bool
  _lifetime : Nat
  _serializer : Serializer
  gen : Nat → String
  seed : Nat

/-- The TS constructor: `this._id = id || this._generateId()`; `_started` keeps
its initializer `false`; `_serializer` keeps its initializer `JSON`, modelled by
the `json` argument. -/
def mkSessionTs (gen : Nat → String) (json : Serializer) (id : String) : SessionTs :=
  { _id := if truthy id then id else gen 0
    _state := Store.empty
    _started := false
    _lifetime := TWO_HOURS
    _serializer := json
    gen := gen
    seed := if truthy id then 0 else 1 }

/-- Method `start()` of the TS variant: the read and the parse/merge are inside a
try/catch whose handler does nothing, and `_started = true` runs after it, so
the method always resolves (with no value). -/
def SessionTs.start (s : SessionTs) (b : BackendT) : Step SessionTs EffT Unit :=
  if s._started then ⟨s, .ok (), []⟩
  else
    match b.read s._id with
    | .err => ⟨{ s with _started := true }, .ok (), [.readE s._id]⟩
    | .ok data =>
        match s._serializer.parse data with
        | .err => ⟨{ s with _started := true }, .ok (), [.readE s._id]⟩
        | .ok o =>
            ⟨{ s with _state := s._state.merge o, _started := true }, .ok (), [.readE s._id]⟩

/-- Method `commit()` of the TS variant: returns (with no value) when not started;
otherwise stringifies and writes inside a try/catch whose handler does nothing,
and then sets `_started = false`.  It never rejects and never skips on empty
state. -/
def SessionTs.commit (s : SessionTs) (b : BackendT) : Step SessionTs EffT Unit :=
  if s._started then
    match s._serializer.stringify s._state.toJSON with
    | .err => ⟨{ s with _started := false }, .ok (), []⟩
    | .ok data =>
        match b.write s._id data s._lifetime with
        | .err => ⟨{ s with _started := false }, .ok (), [.writeE s._id data s._lifetime]⟩
        | .ok _ => ⟨{ s with _started := false }, .ok (), [.writeE s._id data s._lifetime]⟩
  else ⟨s, .ok (), []⟩

/-- Method `regenerate(destroy = false)` of the TS variant (same body as the JS ones:
no try/catch around `remove`). -/
def SessionTs.regenerate (s : SessionTs) (b : BackendT) (destroy : Bool) :
    Step SessionTs EffT Unit :=
  if destroy then
    match b.remove s._id with
    | .err => ⟨s, .err, [.removeE s._id]⟩
    | .ok _ => ⟨{ s with _id := s.gen s.seed, seed := s.seed + 1 }, .ok (), [.removeE s._id]⟩
  else ⟨{ s with _id := s.gen s.seed, seed := s.seed + 1 }, .ok (), []⟩

/-! ### MemoryStorage (both variants of the memory storage file)

`Date.now()` is passed explicitly as `now`. -/

structure Payload where
  expires : Nat
  data : Value
  deriving Repr, DecidableEq

/-- The `Map` holding the sessions (unique keys). -/
abbrev MemMap := List (String × Payload)

def memGet : MemMap → String → Option Payload
  | [], _ => none
  | (k, p) :: rest, sid => if k = sid then some p else memGet rest sid

def memDelete : MemMap → String → MemMap
  | [], _ => []
  | (k, p) :: rest, sid => if k = sid then rest else (k, p) :: memDelete rest sid

def memSet : MemMap → String → Payload → MemMap
  | [], sid, p => [(sid, p)]
  | (k, q) :: rest, sid, p => if k = sid then (sid, p) :: rest else (k, q) :: memSet rest sid p

/-- Method `_isExpired({ expires })`: `expires >= Date.now()` in both variants.
Note the name is misleading: it is true while the entry has NOT yet expired. -/
def memIsExpired (now : Nat) (p : Payload) : Bool := decide (p.expires ≥ now)

/-- Method `read` of the first MemoryStorage variant:
`if (!this._isExpired(payload)) { this.destroy(sid); return }; return payload.data`.
Returns the new map and the result. -/
def memoryReadV1 (now : Nat) (m : MemMap) (sid : String) : MemMap × Option Value :=
  match memGet m sid with
  | none => (m, none)
  | some p => if !(memIsExpired now p) then (memDelete m sid, none) else (m, some p.data)

/-- Method `read` of the second MemoryStorage variant:
`if (this._isExpired(payload)) { this.destroy(sid); return }; return payload.data`. -/
def memoryReadV2 (now : Nat) (m : MemMap) (sid : String) : MemMap × Option Value :=
  match memGet m sid with
  | none => (m, none)
  | some p => if memIsExpired now p then (memDelete m sid, none) else (m, some p.data)

/-- Method `write(sid, data, ttl)`: stores `{ data, expires: Date.now() + ttl }`. -/
def memoryWrite (now : Nat) (m : MemMap) (sid : String) (data : Value) (ttl : Nat) : MemMap :=
  memSet m sid ⟨now + ttl, data⟩

/-! ### Concrete fixtures used by counterexamples and witnesses -/

/-- A deterministic stand-in for the crypto-random id generator. -/
def cgen : Nat → String := fun n => String.append "gid" (toString n)

/-- A JS backend whose calls all succeed (read finds nothing). -/
def okB : BackendJs :=
  { read := fun _ => .ok none, write := fun _ _ _ => .ok (), remove := fun _ => .ok () }

/-- A JS backend whose `read` throws. -/
def throwingReadB : BackendJs :=
  { read := fun _ => .err, write := fun _ _ _ => .ok (), remove := fun _ => .ok () }

/-- A JS backend whose `write` throws. -/
def throwingWriteB : BackendJs :=
  { read := fun _ => .ok none, write := fun _ _ _ => .err, remove := fun _ => .ok () }

/-- A JS backend whose `remove` throws. -/
def throwingRemoveB : BackendJs :=
  { read := fun _ => .ok none, write := fun _ _ _ => .ok (), remove := fun _ => .err }

/-- A TS backend whose calls all succeed. -/
def okBT : BackendT :=
  { read := fun _ => .ok Value.vNull, write := fun _ _ _ => .ok (), remove := fun _ => .ok () }

/-- A TS backend whose `read` throws. -/
def throwingReadBT : BackendT :=
  { read := fun _ => .err, write := fun _ _ _ => .ok (), remove := fun _ => .ok () }

/-- A TS backend whose `remove` throws. -/
def throwingRemoveBT : BackendT :=
  { read := fun _ => .ok Value.vNull, write := fun _ _ _ => .ok (), remove := fun _ => .err }

/-- A serializer stub whose `stringify` succeeds (as `JSON.stringify` does on
any plain state object). -/
def serOk : Serializer :=
  { parse := fun _ => .err, stringify := fun _ => .ok (Value.vStr "serialized") }

/-! ### Claim theorems -/

/-- Claim C5: the in-memory reference storage should return the stored data
exactly when the entry exists and its expiry time has not yet passed, and
purge an expired entry on read.  The first MemoryStorage variant does this,
but the second variant inverts the expiry check: at time 50, on an entry that
expires at time 100 (still valid), its `read` returns absent and deletes the
entry, while the first variant returns the stored data and keeps it. -/
theorem c5_memory_read_inverted_expiry :
    memoryReadV2 50 [("sid1", Payload.mk 100 (Value.vNum 7))] "sid1" = ([], none)
    ∧ memoryReadV1 50 [("sid1", Payload.mk 100 (Value.vNum 7))] "sid1"
        = ([("sid1", Payload.mk 100 (Value.vNum 7))], some (Value.vNum 7))
    ∧ memoryReadV1 150 [("sid1", Payload.mk 100 (Value.vNum 7))] "sid1" = ([], none) := by
  decide

/-- Claim C9: after `merge(newState)`, every key of `newState` maps to its
`newState` value, every key present before and absent from `newState` keeps its
previous value — for the TS `Store.merge` and for the second JS variant's
`Session.merge` — and in particular merging `{b:3,c:4}` into `{a:1,b:2}`
yields `{a:1,b:3,c:4}`. -/
theorem c9_merge_semantics (old new : Obj) (hnd : (objectKeys new).Nodup) :
    (∀ k v, ownLookup new k = some v → (Store.merge ⟨old⟩ new).get k = v)
    ∧ (∀ k, (ownLookup old k).isSome = true → ownLookup new k = none →
        (Store.merge ⟨old⟩ new).get k = Store.get ⟨old⟩ k)
    ∧ (∀ s : SessionJs2, s._state = old →
        (∀ k v, ownLookup new k = some v → (s.merge new).get k = v)
        ∧ (∀ k, (ownLookup old k).isSome = true → ownLookup new k = none →
            (s.merge new).get k = s.get k))
    ∧ Store.merge ⟨[("a", Value.vNum 1), ("b", Value.vNum 2)]⟩
        [("b", Value.vNum 3), ("c", Value.vNum 4)]
        = ⟨[("a", Value.vNum 1), ("b", Value.vNum 3), ("c", Value.vNum 4)]⟩ := by
  refine ⟨?_, ?_, ?_, by decide⟩
  · intro k v h
    cases he : Store.isEmpty ⟨old⟩ with
    | true =>
        have hold : old = [] := (isEmptyObj_iff_nil old).1 he
        subst hold
        simp [Store.merge, he, Store.reset, Store.get, reflectGet, h]
    | false =>
        simp [Store.merge, he, Store.get, reflectGet,
          ownLookup_assign_of_some old new k v hnd h]
  · intro k hsome hnone
    obtain ⟨w, hw⟩ := Option.isSome_iff_exists.1 hsome
    cases he : Store.isEmpty ⟨old⟩ with
    | true =>
        have hold : old = [] := (isEmptyObj_iff_nil old).1 he
        subst hold
        simp [ownLookup] at hw
    | false =>
        have hassign : ownLookup (objectAssign old new) k = ownLookup old k :=
          ownLookup_assign_of_none old new k hnone
        simp [Store.merge, he, Store.get, reflectGet, hassign, hw]
  · intro s hs
    subst hs
    constructor
    · intro k v h
      simp [SessionJs2.merge, SessionJs2.get,
        reflectGet, ownLookup_assign_of_some s._state new k v hnd h]
    · intro k hsome hnone
      obtain ⟨w, hw⟩ := Option.isSome_iff_exists.1 hsome
      have hassign : ownLookup (objectAssign s._state new) k = ownLookup s._state k :=
        ownLookup_assign_of_none s._state new k hnone
      simp [SessionJs2.merge, SessionJs2.get, reflectGet, hassign, hw]

/-- Claim C9, witness: instantiates the merge theorem on concrete states. -/
theorem c9_merge_semantics_witness :
    (Store.merge ⟨[("a", Value.vNum 1), ("b", Value.vNum 2)]⟩
        [("b", Value.vNum 3), ("c", Value.vNum 4)]).get "b" = Value.vNum 3 :=
  (c9_merge_semantics [("a", Value.vNum 1), ("b", Value.vNum 2)]
      [("b", Value.vNum 3), ("c", Value.vNum 4)] (by decide)).1
    "b" (Value.vNum 3) rfl

/-- Claim C10: for a key never inserted that names an `Object.prototype`
property (such as `toString`), the Store's `has` returns true and `get`
returns a non-undefined value, even though an empty Store still reports
`isEmpty() = true` — lookup consults the prototype chain. -/
theorem c10_prototype_lookup (st : Store) (k : String)
    (hk : objectProtoKeys.contains k = true) (hown : ownLookup st._state k = none) :
    Store.isEmpty Store.empty = true
    ∧ st.has k = true
    ∧ st.get k ≠ Value.vUndef := by
  have hk' : k ∈ objectProtoKeys := by simpa using hk
  refine ⟨rfl, ?_, ?_⟩
  · simp [Store.has, reflectHas, hown, hk']
  · simp [Store.get, reflectGet, hown, hk']

/-- Claim C10, witness: the empty Store at key `toString`. -/
theorem c10_prototype_lookup_witness :
    Store.isEmpty Store.empty = true
    ∧ Store.has Store.empty "toString" = true
    ∧ Store.get Store.empty "toString" ≠ Value.vUndef :=
  c10_prototype_lookup Store.empty "toString" (by decide) rfl

/-- Claim C1 is false as stated: in the first JS Session variant (which has no
try/catch in `start`), a session constructed without an id is unstarted, and a
throwing adapter `read` propagates out of the first `start()` call, the started
flag stays false, and no `true` is returned. -/
theorem c1_start_error_counterexample :
    (SessionJs1.start (mkSessionJs1 cgen "" []) throwingReadB).result = Outcome.err
    ∧ (SessionJs1.start (mkSessionJs1 cgen "" []) throwingReadB).post._started = false :=
  ⟨rfl, rfl⟩

/-- Claim C1 (amended): in the TS Session a throwing read is swallowed on the
first `start()` — the state is kept, the started flag becomes true, and the
call resolves with no value (not `true`); in the first JS Session variant a
throwing read propagates out of `start()` and the session is left completely
unchanged (still unstarted). -/
theorem c1_start_error_amended (sT : SessionTs) (bT : BackendT)
    (s1 : SessionJs1) (b1 : BackendJs)
    (hT : sT._started = false) (hTr : bT.read sT._id = .err)
    (h1 : s1._started = false) (h1r : b1.read s1._id = .err) :
    ((sT.start bT).post._started = true
      ∧ (sT.start bT).post._state = sT._state
      ∧ (sT.start bT).result = .ok ())
    ∧ ((s1.start b1).result = .err ∧ (s1.start b1).post = s1) := by
  constructor
  · simp [SessionTs.start, hT, hTr]
  · simp [SessionJs1.start, h1, h1r]

/-- Claim C1, witness: concrete sessions under a throwing read backend. -/
theorem c1_start_error_amended_witness :
    (((mkSessionTs cgen serOk "sid").start throwingReadBT).post._started = true
      ∧ ((mkSessionTs cgen serOk "sid").start throwingReadBT).post._state
          = (mkSessionTs cgen serOk "sid")._state
      ∧ ((mkSessionTs cgen serOk "sid").start throwingReadBT).result = .ok ())
    ∧ ((SessionJs1.start (mkSessionJs1 cgen "" []) throwingReadB).result = .err
      ∧ (SessionJs1.start (mkSessionJs1 cgen "" []) throwingReadB).post
          = mkSessionJs1 cgen "" []) :=
  c1_start_error_amended (mkSessionTs cgen serOk "sid") throwingReadBT
    (mkSessionJs1 cgen "" []) throwingReadB rfl rfl rfl rfl

/-- Claim C2 is false as stated: on a started, non-empty first-variant JS
session, a throwing adapter `write` propagates out of `commit()` instead of
returning false (the JS `commit` has no try/catch). -/
theorem c2_commit_error_counterexample :
    (mkSessionJs1 cgen "sid" [("a", Value.vNum 1)])._started = true
    ∧ (mkSessionJs1 cgen "sid" [("a", Value.vNum 1)]).isEmpty = false
    ∧ (SessionJs1.commit (mkSessionJs1 cgen "sid" [("a", Value.vNum 1)]) throwingWriteB).result
        = Outcome.err :=
  ⟨rfl, rfl, rfl⟩

/-- Claim C2 (amended): on a non-empty JS session, `commit()` returns true when
the adapter write succeeds, but a throwing write propagates to the caller; the
TS `commit` never throws but resolves with no boolean at all. -/
theorem c2_commit_error_amended (s : SessionJs1) (b b' : BackendJs)
    (sT : SessionTs) (bT : BackendT)
    (h : s.isEmpty = false)
    (hw : b.write s._id s._state s._lifetime = .ok ())
    (hw' : b'.write s._id s._state s._lifetime = .err) :
    (s.commit b).result = .ok true
    ∧ (s.commit b').result = .err
    ∧ (sT.commit bT).result = .ok () := by
  refine ⟨?_, ?_, ?_⟩
  · simp [SessionJs1.commit, h, hw]
  · simp [SessionJs1.commit, h, hw']
  · simp only [SessionTs.commit]
    split
    · split
      · rfl
      · split <;> rfl
    · rfl

/-- Claim C2, witness: a concrete non-empty session under succeeding and
throwing write backends. -/
theorem c2_commit_error_amended_witness :
    (SessionJs1.commit (mkSessionJs1 cgen "sid" [("a", Value.vNum 1)]) okB).result = .ok true
    ∧ (SessionJs1.commit (mkSessionJs1 cgen "sid" [("a", Value.vNum 1)]) throwingWriteB).result
        = .err
    ∧ ((mkSessionTs cgen serOk "sid").commit okBT).result = .ok () :=
  c2_commit_error_amended (mkSessionJs1 cgen "sid" [("a", Value.vNum 1)]) okB throwingWriteB
    (mkSessionTs cgen serOk "sid") okBT rfl rfl rfl

/-- Claim C3 is false as stated: the first JS variant's constructor sets the
started flag the other way around (false when the id is omitted, true when an
id is provided), and the TS constructor leaves it false even when the id is
omitted. -/
theorem c3_constructor_started_counterexample :
    (mkSessionJs1 cgen "" [])._started = false
    ∧ (mkSessionJs1 cgen "sid" [])._started = true
    ∧ (mkSessionTs cgen serOk "")._started = false :=
  ⟨rfl, rfl, rfl⟩

/-- Helper: the empty string is falsy. -/
theorem truthy_empty : truthy "" = false := rfl

/-- Claim C3 (amended): in every variant an omitted or empty id is replaced by
a freshly generated one and a provided non-empty id is used as-is; but the
started flag differs per variant: the second JS variant matches the claim
(true exactly when the id is omitted), the first JS variant is inverted (true
exactly when an id is provided), and the TS variant starts false regardless. -/
theorem c3_constructor_started_amended (g : Nat → String) (sid : String) (st : Obj)
    (ser : Serializer) (hs : truthy sid = true) :
    ((mkSessionJs2 g "" st)._started = true ∧ (mkSessionJs2 g "" st)._id = g 0)
    ∧ ((mkSessionJs2 g sid st)._started = false ∧ (mkSessionJs2 g sid st)._id = sid)
    ∧ ((mkSessionJs1 g "" st)._started = false ∧ (mkSessionJs1 g "" st)._id = g 0)
    ∧ ((mkSessionJs1 g sid st)._started = true ∧ (mkSessionJs1 g sid st)._id = sid)
    ∧ ((mkSessionTs g ser "")._started = false ∧ (mkSessionTs g ser "")._id = g 0)
    ∧ ((mkSessionTs g ser sid)._started = false ∧ (mkSessionTs g ser sid)._id = sid) := by
  simp [mkSessionJs1, mkSessionJs2, mkSessionTs, hs, truthy_empty]

/-- Claim C3, witness: the amended constructor contract at a concrete id. -/
theorem c3_constructor_started_amended_witness :
    ((mkSessionJs2 cgen "" [])._started = true ∧ (mkSessionJs2 cgen "" [])._id = cgen 0)
    ∧ ((mkSessionJs2 cgen "sid" [])._started = false ∧ (mkSessionJs2 cgen "sid" [])._id = "sid")
    ∧ ((mkSessionJs1 cgen "" [])._started = false ∧ (mkSessionJs1 cgen "" [])._id = cgen 0)
    ∧ ((mkSessionJs1 cgen "sid" [])._started = true ∧ (mkSessionJs1 cgen "sid" [])._id = "sid")
    ∧ ((mkSessionTs cgen serOk "")._started = false ∧ (mkSessionTs cgen serOk "")._id = cgen 0)
    ∧ ((mkSessionTs cgen serOk "sid")._started = false
        ∧ (mkSessionTs cgen serOk "sid")._id = "sid") :=
  c3_constructor_started_amended cgen "sid" [] serOk rfl

/-- Claim C4 is false as stated: a started TS session whose state is empty
still performs an adapter write on `commit()` — the TS `commit` has no
emptiness check (and no variant accepts a `force` parameter). -/
theorem c4_empty_commit_counterexample :
    ((SessionTs.start (mkSessionTs cgen serOk "sid") throwingReadBT).post)._state.isEmpty = true
    ∧ (((SessionTs.start (mkSessionTs cgen serOk "sid") throwingReadBT).post).commit okBT).effs
        = [EffT.writeE "sid" (Value.vStr "serialized") TWO_HOURS] :=
  ⟨rfl, rfl⟩

/-- Claim C4 (amended): in the JS sessions, `commit()` on an empty state
performs zero adapter writes but reports `false` (the skip indicator), not a
success; the TS `commit` writes whenever the session is started, empty or not. -/
theorem c4_empty_commit_amended (s1 : SessionJs1) (s2 : SessionJs2) (b : BackendJs)
    (h1 : s1.isEmpty = true) (h2 : s2.isEmpty = true) :
    s1.commit b = ⟨s1, .ok false, []⟩ ∧ s2.commit b = ⟨s2, .ok false, []⟩ := by
  constructor
  · simp [SessionJs1.commit, h1]
  · simp [SessionJs2.commit, h2]

/-- Claim C4, witness: concrete empty sessions commit without writing. -/
theorem c4_empty_commit_amended_witness :
    SessionJs1.commit (mkSessionJs1 cgen "sid" []) okB = ⟨mkSessionJs1 cgen "sid" [], .ok false, []⟩
    ∧ SessionJs2.commit (mkSessionJs2 cgen "sid" []) okB
        = ⟨mkSessionJs2 cgen "sid" [], .ok false, []⟩ :=
  c4_empty_commit_amended (mkSessionJs1 cgen "sid" []) (mkSessionJs2 cgen "sid" []) okB rfl rfl

/-- Claim C6 is false as stated: the TS `commit()` resets the started flag back
to false on a started session, so the flag is not a one-way false-to-true
transition. -/
theorem c6_started_monotonic_counterexample :
    ((SessionTs.start (mkSessionTs cgen serOk "id1") throwingReadBT).post)._started = true
    ∧ ((((SessionTs.start (mkSessionTs cgen serOk "id1") throwingReadBT).post).commit
          okBT).post)._started = false :=
  ⟨rfl, rfl⟩

/-- Claim C6 (amended): in the second JS variant the started flag is monotone —
`start()` either raises it to true or leaves it unchanged, and no other public
operation changes it — but in the TS variant `commit()` on a started session
resets the flag to false. -/
theorem c6_started_monotonic_amended (s : SessionJs2) (b : BackendJs) (k : String)
    (v : Value) (o : Obj) (d : Bool) (sT : SessionTs) (bT : BackendT)
    (hT : sT._started = true) :
    ((s.start b).post._started = true ∨ (s.start b).post._started = s._started)
    ∧ (s.commit b).post._started = s._started
    ∧ (s.regenerate b d).post._started = s._started
    ∧ (s.invalidate b).post._started = s._started
    ∧ (s.set k v)._started = s._started
    ∧ (s.reset o)._started = s._started
    ∧ (s.merge o)._started = s._started
    ∧ (s.delete k)._started = s._started
    ∧ (s.pull k).1._started = s._started
    ∧ (sT.commit bT).post._started = false := by
  refine ⟨?_, ?_, ?_, ?_, rfl, rfl, rfl, rfl, rfl, ?_⟩
  · by_cases hs : s._started = true
    · right
      simp [SessionJs2.start, hs]
    · cases hr : b.read s._id with
      | err => right; simp [SessionJs2.start, hs, hr]
      | ok data =>
          cases data with
          | none => right; simp [SessionJs2.start, hs, hr]
          | some o' => left; simp [SessionJs2.start, hs, hr]
  · simp only [SessionJs2.commit]
    split
    · rfl
    · split <;> rfl
  · simp only [SessionJs2.regenerate]
    split
    · split <;> rfl
    · rfl
  · simp only [SessionJs2.invalidate, SessionJs2.regenerate, SessionJs2.reset]
    split
    · split <;> rfl
    · rfl
  · simp only [SessionTs.commit, hT, if_pos]
    split
    · rfl
    · split <;> rfl

/-- Claim C6, witness: a concrete started second-variant JS session and a
concrete started TS session. -/
theorem c6_started_monotonic_amended_witness :
    (((mkSessionJs2 cgen "" []).start okB).post._started = true
      ∨ ((mkSessionJs2 cgen "" []).start okB).post._started = (mkSessionJs2 cgen "" [])._started)
    ∧ ((mkSessionJs2 cgen "" []).commit okB).post._started = (mkSessionJs2 cgen "" [])._started
    ∧ ((mkSessionJs2 cgen "" []).regenerate okB false).post._started
        = (mkSessionJs2 cgen "" [])._started
    ∧ ((mkSessionJs2 cgen "" []).invalidate okB).post._started = (mkSessionJs2 cgen "" [])._started
    ∧ ((mkSessionJs2 cgen "" []).set "k" (Value.vNum 0))._started
        = (mkSessionJs2 cgen "" [])._started
    ∧ ((mkSessionJs2 cgen "" []).reset [])._started = (mkSessionJs2 cgen "" [])._started
    ∧ ((mkSessionJs2 cgen "" []).merge [])._started = (mkSessionJs2 cgen "" [])._started
    ∧ ((mkSessionJs2 cgen "" []).delete "k")._started = (mkSessionJs2 cgen "" [])._started
    ∧ ((mkSessionJs2 cgen "" []).pull "k").1._started = (mkSessionJs2 cgen "" [])._started
    ∧ (((SessionTs.start (mkSessionTs cgen serOk "id2") throwingReadBT).post).commit
          okBT).post._started = false :=
  c6_started_monotonic_amended (mkSessionJs2 cgen "" []) okB "k" (Value.vNum 0) [] false
    ((SessionTs.start (mkSessionTs cgen serOk "id2") throwingReadBT).post) okBT rfl

/-- Claim C7 is false as stated: a second-variant JS session whose storage
holds no data stays unstarted after `start()`, so a second `start()` invokes
the adapter's read again — two reads on the same instance. -/
theorem c7_single_read_counterexample :
    ((mkSessionJs2 cgen "sid" []).start okB).effs
      ++ (((mkSessionJs2 cgen "sid" []).start okB).post.start okB).effs
      = [EffJs.readE "sid", EffJs.readE "sid"] :=
  rfl

/-- Claim C7 (amended): a `start()` on an already-started session performs no
adapter read and returns false (JS) or resolves with no value (TS); but the
read is not bounded to once per instance lifetime, because a second-variant JS
`start()` that finds no data leaves the session unstarted, and the TS `commit()`
resets the started flag, so later `start()` calls read again. -/
theorem c7_no_read_when_started_amended (s1 : SessionJs1) (s2 : SessionJs2)
    (sT : SessionTs) (b : BackendJs) (bT : BackendT)
    (h1 : s1._started = true) (h2 : s2._started = true) (hT : sT._started = true) :
    s1.start b = ⟨s1, .ok false, []⟩
    ∧ s2.start b = ⟨s2, .ok false, []⟩
    ∧ sT.start bT = ⟨sT, .ok (), []⟩ := by
  refine ⟨?_, ?_, ?_⟩
  · simp [SessionJs1.start, h1]
  · simp [SessionJs2.start, h2]
  · simp [SessionTs.start, hT]

/-- Claim C7, witness: concrete already-started sessions of each variant. -/
theorem c7_no_read_when_started_amended_witness :
    SessionJs1.start (mkSessionJs1 cgen "sid" []) okB = ⟨mkSessionJs1 cgen "sid" [], .ok false, []⟩
    ∧ SessionJs2.start (mkSessionJs2 cgen "" []) okB = ⟨mkSessionJs2 cgen "" [], .ok false, []⟩
    ∧ SessionTs.start ((SessionTs.start (mkSessionTs cgen serOk "id3") throwingReadBT).post) okBT
        = ⟨(SessionTs.start (mkSessionTs cgen serOk "id3") throwingReadBT).post, .ok (), []⟩ :=
  c7_no_read_when_started_amended (mkSessionJs1 cgen "sid" []) (mkSessionJs2 cgen "" [])
    ((SessionTs.start (mkSessionTs cgen serOk "id3") throwingReadBT).post) okB okBT rfl rfl rfl

/-- Claim C8 is false as stated: `regenerate(true)` has no try/catch around the
adapter's `remove`, so a throwing remove propagates and the id is NOT
reassigned. -/
theorem c8_regenerate_destroy_counterexample :
    (SessionJs1.regenerate (mkSessionJs1 cgen "old" []) throwingRemoveB true).result = Outcome.err
    ∧ (SessionJs1.regenerate (mkSessionJs1 cgen "old" []) throwingRemoveB true).post._id
        = "old" :=
  ⟨rfl, rfl⟩

/-- Claim C8 (amended): `regenerate(true)` calls the adapter's `remove` with
the old id and assigns a newly generated id only when `remove` succeeds; a
throwing `remove` propagates out of `regenerate` and leaves the session (and
its id) unchanged; `regenerate(false)` assigns a newly generated id without
invoking `remove` — in both the JS and the TS variants. -/
theorem c8_regenerate_amended (s : SessionJs1) (b b' : BackendJs)
    (sT : SessionTs) (bT bT' : BackendT)
    (hok : b.remove s._id = .ok ()) (herr : b'.remove s._id = .err)
    (hTok : bT.remove sT._id = .ok ()) (hTerr : bT'.remove sT._id = .err) :
    s.regenerate b true
        = ⟨{ s with _id := s.gen s.seed, seed := s.seed + 1 }, .ok (), [.removeE s._id]⟩
    ∧ s.regenerate b' true = ⟨s, .err, [.removeE s._id]⟩
    ∧ s.regenerate b false
        = ⟨{ s with _id := s.gen s.seed, seed := s.seed + 1 }, .ok (), []⟩
    ∧ sT.regenerate bT true
        = ⟨{ sT with _id := sT.gen sT.seed, seed := sT.seed + 1 }, .ok (), [.removeE sT._id]⟩
    ∧ sT.regenerate bT' true = ⟨sT, .err, [.removeE sT._id]⟩
    ∧ sT.regenerate bT false
        = ⟨{ sT with _id := sT.gen sT.seed, seed := sT.seed + 1 }, .ok (), []⟩ := by
  refine ⟨?_, ?_, rfl, ?_, ?_, rfl⟩
  · simp [SessionJs1.regenerate, hok]
  · simp [SessionJs1.regenerate, herr]
  · simp [SessionTs.regenerate, hTok]
  · simp [SessionTs.regenerate, hTerr]

/-- Claim C8, witness: a concrete session under succeeding and throwing remove
backends. -/
theorem c8_regenerate_amended_witness :
    SessionJs1.regenerate (mkSessionJs1 cgen "old" []) okB true
        = ⟨{ mkSessionJs1 cgen "old" [] with _id := cgen 0, seed := 1 }, .ok (),
            [.removeE "old"]⟩
    ∧ SessionJs1.regenerate (mkSessionJs1 cgen "old" []) throwingRemoveB true
        = ⟨mkSessionJs1 cgen "old" [], .err, [.removeE "old"]⟩
    ∧ SessionJs1.regenerate (mkSessionJs1 cgen "old" []) okB false
        = ⟨{ mkSessionJs1 cgen "old" [] with _id := cgen 0, seed := 1 }, .ok (), []⟩
    ∧ SessionTs.regenerate (mkSessionTs cgen serOk "old") okBT true
        = ⟨{ mkSessionTs cgen serOk "old" with _id := cgen 0, seed := 1 }, .ok (),
            [.removeE "old"]⟩
    ∧ SessionTs.regenerate (mkSessionTs cgen serOk "old") throwingRemoveBT true
        = ⟨mkSessionTs cgen serOk "old", .err, [.removeE "old"]⟩
    ∧ SessionTs.regenerate (mkSessionTs cgen serOk "old") okBT false
        = ⟨{ mkSessionTs cgen serOk "old" with _id := cgen 0, seed := 1 }, .ok (), []⟩ :=
  c8_regenerate_amended (mkSessionJs1 cgen "old" []) okB throwingRemoveB
    (mkSessionTs cgen serOk "old") okBT throwingRemoveBT rfl rfl rfl rfl

end SessionSpec
